import Mathlib

/-!
rdkitcffi: the demo program of `lib/rdkitcffi_linux/demo.c` and the build
identifiers of `include/RDGeneral/versions.cpp`.

`demo.c` is straight-line glue code around the C boundary declared in
`cffiwrapper.h`.  The bodies of the boundary functions (`get_mol`, `get_smiles`,
`add_hs`, `set_3d_coords`, `get_molblock`, `version`, `enable_logging`) and of
libc's `free` are not part of the sources, so they are taken as a parameter
(`Library`): arbitrary functions of their arguments and of a hidden state `W`
(library globals and the heap).  What is proved about `canon_smiles` and
`main` is proved for every such library, under the hypotheses each theorem
names.

Modelling conventions.
* A pointer is a natural number (its address, `0` is `NULL`).
* A parameter passed by address (`&pkl`, `&pkl_size`) is modelled by value-in /
  value-out: the callee receives what the variable holds and returns what it
  holds afterwards.
* A boundary function sees only its arguments and the hidden state; it cannot
  reach a local variable of the caller that it was not handed the address of,
  and it does not write to the program's standard output.
* `printf` with `%s` writes the string that `Library.cstr` finds at the
  address in the current hidden state.  When the address holds no
  NUL-terminated string (`NULL`, a released or otherwise invalid buffer) the
  call is undefined in C: the statement yields `Except.error` with the state
  reached, the run goes no further, and nothing after that statement happens.
* Every call is logged as an `Event` that records the callee, the argument
  expressions as they are written in the source (with the values they had),
  and the returned value when the program keeps it.
-/

namespace RdkitCffi

/-! ## `include/RDGeneral/versions.cpp` -/

/-- The constant `RDKit::rdkitVersion` (versions.cpp, line 3). -/
def rdkitVersion : String := "2021.09.1pre"

/-- The constant `RDKit::boostVersion` (versions.cpp, line 8). -/
def boostVersion : String := "1_73"

/-- The constant `RDKit::rdkitBuild` (versions.cpp, line 11). -/
def rdkitBuild : String := "Linux|4.15.0-140-generic|UNIX|GNU|64-bit"

/-! ## Events -/

/-- A C pointer value. -/
abbrev Ptr := Nat

/-- The local variables of `canon_smiles`. -/
inductive Var where
  | pkl
  | pkl_size
  | smiles
  | molb
  deriving DecidableEq, Repr

/-- The functions called by `demo.c`. -/
inductive Fn where
  | enable_logging
  | version
  | get_mol
  | get_smiles
  | add_hs
  | set_3d_coords
  | get_molblock
  | printf
  | free
  deriving DecidableEq, Repr

/-- An argument expression of a call, as written in the source. -/
inductive Arg where
  /-- A string literal. -/
  | lit (text : String)
  /-- The constant `NULL`. -/
  | null
  /-- A variable passed by value: `v`, holding `x` at the call. -/
  | val (v : Var) (x : Nat)
  /-- The address of a variable: `&v`, which held `x` before the call and
  holds `y` after it. -/
  | ref (v : Var) (x y : Nat)
  /-- The value of a nested call expression. -/
  | tmp (x : Nat)
  deriving DecidableEq, Repr

/-- One call made by the program. -/
structure Event where
  fn : Fn
  args : List Arg
  /-- The returned value, when the program stores or uses it. -/
  ret : Option Nat
  deriving DecidableEq, Repr

/-- The variable an argument expression names, if any. -/
def Arg.var? : Arg → Option Var
  | .val v _ => some v
  | .ref v _ _ => some v
  | _ => none

/-- The variables that occur in the argument list of a call. -/
def Event.vars (e : Event) : List Var :=
  e.args.filterMap Arg.var?

/-- The variable an argument expression takes the address of, if any. -/
def Arg.refVar? : Arg → Option Var
  | .ref v _ _ => some v
  | _ => none

/-- The variables whose address is passed to a call. -/
def Event.refs (e : Event) : List Var :=
  e.args.filterMap Arg.refVar?

/-- The call is `free(...)`. -/
def Event.isFree (e : Event) : Bool :=
  e.fn == Fn.free

/-- The call is `free(v)` for the variable `v`. -/
def Event.isFreeOf (v : Var) (e : Event) : Bool :=
  e.fn == Fn.free && e.vars.contains v

/-- The functions `demo.c` links against, over a hidden state `W`.
Each boundary function is given the parameters it is called with in `demo.c`;
a `const char *` that the demo passes as `NULL` is an `Option String`. -/
structure Library (W : Type) where
  /-- The call `enable_logging()`. -/
  enable_logging : W → W
  /-- The call `version()`: the returned `char *`. -/
  version : W → Ptr × W
  /-- The call `get_mol(input, &pkl_size, details)`: the returned handle and
  the size left in `pkl_size`. -/
  get_mol : String → Nat → String → W → (Ptr × Nat) × W
  /-- The call `get_smiles(pkl, pkl_size, details)`: the returned `char *`. -/
  get_smiles : Ptr → Nat → Option String → W → Ptr × W
  /-- The call `add_hs(&pkl, &pkl_size)`: the handle and size left in the two
  variables (the returned status is discarded by the demo). -/
  add_hs : Ptr → Nat → W → (Ptr × Nat) × W
  /-- The call `set_3d_coords(&pkl, &pkl_size, details)`: the handle and size
  left in the two variables (the returned status is discarded by the demo). -/
  set_3d_coords : Ptr → Nat → String → W → (Ptr × Nat) × W
  /-- The call `get_molblock(pkl, pkl_size, details)`: the returned `char *`. -/
  get_molblock : Ptr → Nat → Option String → W → Ptr × W
  /-- The call `free(p)` of libc. -/
  free : Ptr → W → W
  /-- What `printf` writes for `%s` given an address: the NUL-terminated
  string stored there, or `none` when the call is undefined and does not
  complete because the address holds no such string (`NULL`, an invalid or
  released buffer). -/
  cstr : W → Ptr → Option String

/-! ## Program state -/

/-- The state of the running demo: the hidden state of the library and heap,
what has been written to standard output, the calls made so far (oldest
first), and the four locals of `canon_smiles` (which hold indeterminate values
until they are assigned). -/
structure State (W : Type) where
  world : W
  out : String
  trace : List Event
  pkl : Ptr
  pkl_size : Nat
  smiles : Ptr
  molb : Ptr

variable {W : Type}

/-! ## `canon_smiles`, statement by statement (demo.c, lines 6-25) -/

/-- Line 10: `pkl = get_mol("c1cc(O)ccc1",&pkl_size,"");` -/
def stmt_get_mol (F : Library W) (s : State W) : State W :=
  let r := F.get_mol "c1cc(O)ccc1" s.pkl_size "" s.world
  { s with
    world := r.2
    pkl := r.1.1
    pkl_size := r.1.2
    trace := s.trace ++
      [⟨Fn.get_mol, [Arg.lit "c1cc(O)ccc1", Arg.ref Var.pkl_size s.pkl_size r.1.2, Arg.lit ""],
        some r.1.1⟩] }

/-- Line 13: `char *smiles=get_smiles(pkl,pkl_size,NULL);` -/
def stmt_get_smiles (F : Library W) (s : State W) : State W :=
  let r := F.get_smiles s.pkl s.pkl_size none s.world
  { s with
    world := r.2
    smiles := r.1
    trace := s.trace ++
      [⟨Fn.get_smiles, [Arg.val Var.pkl s.pkl, Arg.val Var.pkl_size s.pkl_size, Arg.null],
        some r.1⟩] }

/-- Line 14: `printf("Canonical SMILES: %s\n",smiles);`  Undefined when
`smiles` holds no string: the call is logged and the run stops. -/
def stmt_printf_smiles (F : Library W) (s : State W) : Except (State W) (State W) :=
  match F.cstr s.world s.smiles with
  | some text =>
    Except.ok { s with
      out := s.out ++ ("Canonical SMILES: " ++ text ++ "\n")
      trace := s.trace ++
        [⟨Fn.printf, [Arg.lit "Canonical SMILES: %s\n", Arg.val Var.smiles s.smiles], none⟩] }
  | none =>
    Except.error { s with
      trace := s.trace ++
        [⟨Fn.printf, [Arg.lit "Canonical SMILES: %s\n", Arg.val Var.smiles s.smiles], none⟩] }

/-- Line 17: `add_hs(&pkl,&pkl_size);` -/
def stmt_add_hs (F : Library W) (s : State W) : State W :=
  let r := F.add_hs s.pkl s.pkl_size s.world
  { s with
    world := r.2
    pkl := r.1.1
    pkl_size := r.1.2
    trace := s.trace ++
      [⟨Fn.add_hs, [Arg.ref Var.pkl s.pkl r.1.1, Arg.ref Var.pkl_size s.pkl_size r.1.2],
        none⟩] }

/-- Line 19: `set_3d_coords(&pkl,&pkl_size,...)` with the option string
whose text is: open brace, "randomSeed":42, close brace. -/
def stmt_set_3d_coords (F : Library W) (s : State W) : State W :=
  let r := F.set_3d_coords s.pkl s.pkl_size "\x7b\"randomSeed\":42\x7d" s.world
  { s with
    world := r.2
    pkl := r.1.1
    pkl_size := r.1.2
    trace := s.trace ++
      [⟨Fn.set_3d_coords,
        [Arg.ref Var.pkl s.pkl r.1.1, Arg.ref Var.pkl_size s.pkl_size r.1.2,
          Arg.lit "\x7b\"randomSeed\":42\x7d"],
        none⟩] }

/-- Line 21: `char *molb = get_molblock(pkl,pkl_size,NULL);` -/
def stmt_get_molblock (F : Library W) (s : State W) : State W :=
  let r := F.get_molblock s.pkl s.pkl_size none s.world
  { s with
    world := r.2
    molb := r.1
    trace := s.trace ++
      [⟨Fn.get_molblock, [Arg.val Var.pkl s.pkl, Arg.val Var.pkl_size s.pkl_size, Arg.null],
        some r.1⟩] }

/-- Line 22: `printf("%s\n",molb);`  Undefined when `molb` holds no string:
the call is logged and the run stops. -/
def stmt_printf_molb (F : Library W) (s : State W) : Except (State W) (State W) :=
  match F.cstr s.world s.molb with
  | some text =>
    Except.ok { s with
      out := s.out ++ (text ++ "\n")
      trace := s.trace ++ [⟨Fn.printf, [Arg.lit "%s\n", Arg.val Var.molb s.molb], none⟩] }
  | none =>
    Except.error { s with
      trace := s.trace ++ [⟨Fn.printf, [Arg.lit "%s\n", Arg.val Var.molb s.molb], none⟩] }

/-- Line 23: `free(molb);` -/
def stmt_free_molb (F : Library W) (s : State W) : State W :=
  { s with
    world := F.free s.molb s.world
    trace := s.trace ++ [⟨Fn.free, [Arg.val Var.molb s.molb], none⟩] }

/-- Line 24: `free(pkl);` -/
def stmt_free_pkl (F : Library W) (s : State W) : State W :=
  { s with
    world := F.free s.pkl s.world
    trace := s.trace ++ [⟨Fn.free, [Arg.val Var.pkl s.pkl], none⟩] }

/-- The function `canon_smiles` (demo.c, lines 6-25): its nine statements in
source order.  `Except.ok` is the state in which the function returns;
`Except.error` is the state reached at a `printf` whose behaviour is
undefined. -/
def canon_smiles (F : Library W) (s : State W) : Except (State W) (State W) := do
  let s := stmt_get_mol F s
  let s := stmt_get_smiles F s
  let s ← stmt_printf_smiles F s
  let s := stmt_add_hs F s
  let s := stmt_set_3d_coords F s
  let s := stmt_get_molblock F s
  let s ← stmt_printf_molb F s
  let s := stmt_free_molb F s
  pure (stmt_free_pkl F s)

/-- The state a run ends in: the state at the return, or the state at the
undefined statement. -/
def reached : Except (State W) (State W) → State W
  | Except.ok s => s
  | Except.error s => s

/-- The run came to its return. -/
def returned : Except (State W) (State W) → Bool
  | Except.ok _ => true
  | Except.error _ => false

/-- The calls made by one run of `canon_smiles` started in `s`, oldest first,
up to its return or up to the statement at which it stops. -/
def canon_smiles_events (F : Library W) (s : State W) : List Event :=
  (reached (canon_smiles F s)).trace.drop s.trace.length

/-! ## `main` (demo.c, lines 27-32) -/

/-- Line 28: `enable_logging();` -/
def stmt_enable_logging (F : Library W) (s : State W) : State W :=
  { s with
    world := F.enable_logging s.world
    trace := s.trace ++ [⟨Fn.enable_logging, [], none⟩] }

/-- Line 29: `printf("RDKIT CFFI %s\n",version());`  Undefined when the
pointer returned by `version()` holds no string: both calls are logged and the
run stops. -/
def stmt_printf_version (F : Library W) (s : State W) : Except (State W) (State W) :=
  let r := F.version s.world
  match F.cstr r.2 r.1 with
  | some text =>
    Except.ok { s with
      world := r.2
      out := s.out ++ ("RDKIT CFFI " ++ text ++ "\n")
      trace := s.trace ++
        [⟨Fn.version, [], some r.1⟩,
         ⟨Fn.printf, [Arg.lit "RDKIT CFFI %s\n", Arg.tmp r.1], none⟩] }
  | none =>
    Except.error { s with
      world := r.2
      trace := s.trace ++
        [⟨Fn.version, [], some r.1⟩,
         ⟨Fn.printf, [Arg.lit "RDKIT CFFI %s\n", Arg.tmp r.1], none⟩] }

/-- The function `main` (demo.c, lines 27-32): `Except.ok` carries the exit
status and the final state; `Except.error` is the state reached at a `printf`
whose behaviour is undefined. -/
def main (F : Library W) (s : State W) : Except (State W) (Int × State W) := do
  let s := stmt_enable_logging F s
  let s ← stmt_printf_version F s
  let s ← canon_smiles F s
  pure (0, s)

/-! ## Concrete libraries for evaluation -/

/-- A stand-in library.  Its hidden state is an allocation counter and the
list of addresses passed to `free`: every call that returns a buffer bumps the
counter and returns it as the fresh address; `add_hs` and `set_3d_coords` hand
back a fresh buffer of a larger size; `free` records its argument; an address
holds the placeholder string unless it is `NULL` or has been freed. -/
def stubLib : Library (Nat × List Nat) where
  enable_logging := fun w => w
  version := fun w => (w.1 + 1, (w.1 + 1, w.2))
  get_mol := fun _ _ _ w => ((w.1 + 1, 100), (w.1 + 1, w.2))
  get_smiles := fun _ _ _ w => (w.1 + 1, (w.1 + 1, w.2))
  add_hs := fun _ n w => ((w.1 + 1, n + 50), (w.1 + 1, w.2))
  set_3d_coords := fun _ n _ w => ((w.1 + 1, n + 200), (w.1 + 1, w.2))
  get_molblock := fun _ _ _ w => (w.1 + 1, (w.1 + 1, w.2))
  free := fun p w => (w.1, w.2 ++ [p])
  cstr := fun w p => if p = 0 ∨ p ∈ w.2 then none else some "text"

/-- The stand-in library with one change: `get_molblock` fails and returns
`NULL`. -/
def nullBlockLib : Library (Nat × List Nat) :=
  { stubLib with get_molblock := fun _ _ _ w => (0, w) }

/-- A start state for evaluation: nothing allocated or freed, empty output,
empty trace, zeroed locals. -/
def state0 : State (Nat × List Nat) :=
  { world := (0, []), out := "", trace := [], pkl := 0, pkl_size := 0, smiles := 0, molb := 0 }

/-! ## The version query, from the interface description -/

/-- Modelled from the spec: the body of `version()` is not in the sources (only
its call in `main` and the constant `rdkitVersion` of versions.cpp are).  The
interface section lists `libraryVersion() -> string` as a static build
identifier with no side effects: it yields the constant and hands the program
state back as it received it. -/
def libraryVersion (s : State W) : String × State W :=
  (rdkitVersion, s)

/-! ## Theorems -/

/-- The outcome of `canon_smiles` for every library and start state, in terms
of what the library returns: `mol` from `get_mol`, `smi` from `get_smiles` on
that handle, `hs` from `add_hs` on that handle, `emb` from `set_3d_coords` on
what `add_hs` left, `blk` from `get_molblock` on what `set_3d_coords` left,
each call in the hidden state the previous one left.  The run stops at line 14
when `smiles` holds no string, stops at line 22 when `molb` holds none, and
otherwise returns after `free(molb)` and `free(pkl)`. -/
theorem canon_smiles_outcome (F : Library W) (s : State W) :
    let mol := F.get_mol "c1cc(O)ccc1" s.pkl_size "" s.world
    let smi := F.get_smiles mol.1.1 mol.1.2 none mol.2
    let hs := F.add_hs mol.1.1 mol.1.2 smi.2
    let emb := F.set_3d_coords hs.1.1 hs.1.2 "\x7b\"randomSeed\":42\x7d" hs.2
    let blk := F.get_molblock emb.1.1 emb.1.2 none emb.2
    let upTo14 : List Event :=
      [ ⟨Fn.get_mol,
          [Arg.lit "c1cc(O)ccc1", Arg.ref Var.pkl_size s.pkl_size mol.1.2, Arg.lit ""],
          some mol.1.1⟩,
        ⟨Fn.get_smiles, [Arg.val Var.pkl mol.1.1, Arg.val Var.pkl_size mol.1.2, Arg.null],
          some smi.1⟩,
        ⟨Fn.printf, [Arg.lit "Canonical SMILES: %s\n", Arg.val Var.smiles smi.1], none⟩ ]
    let upTo22 : List Event :=
      [ ⟨Fn.add_hs, [Arg.ref Var.pkl mol.1.1 hs.1.1, Arg.ref Var.pkl_size mol.1.2 hs.1.2],
          none⟩,
        ⟨Fn.set_3d_coords,
          [Arg.ref Var.pkl hs.1.1 emb.1.1, Arg.ref Var.pkl_size hs.1.2 emb.1.2,
            Arg.lit "\x7b\"randomSeed\":42\x7d"], none⟩,
        ⟨Fn.get_molblock, [Arg.val Var.pkl emb.1.1, Arg.val Var.pkl_size emb.1.2, Arg.null],
          some blk.1⟩,
        ⟨Fn.printf, [Arg.lit "%s\n", Arg.val Var.molb blk.1], none⟩ ]
    canon_smiles F s =
      match F.cstr smi.2 smi.1 with
      | none =>
        Except.error
          { world := smi.2, out := s.out, trace := s.trace ++ upTo14,
            pkl := mol.1.1, pkl_size := mol.1.2, smiles := smi.1, molb := s.molb }
      | some smiText =>
        match F.cstr blk.2 blk.1 with
        | none =>
          Except.error
            { world := blk.2, out := s.out ++ ("Canonical SMILES: " ++ smiText ++ "\n"),
              trace := s.trace ++ (upTo14 ++ upTo22),
              pkl := emb.1.1, pkl_size := emb.1.2, smiles := smi.1, molb := blk.1 }
        | some blkText =>
          Except.ok
            { world := F.free emb.1.1 (F.free blk.1 blk.2),
              out := s.out ++ ("Canonical SMILES: " ++ smiText ++ "\n") ++ (blkText ++ "\n"),
              trace := s.trace ++ (upTo14 ++ upTo22 ++
                [ ⟨Fn.free, [Arg.val Var.molb blk.1], none⟩,
                  ⟨Fn.free, [Arg.val Var.pkl emb.1.1], none⟩ ]),
              pkl := emb.1.1, pkl_size := emb.1.2, smiles := smi.1, molb := blk.1 } := by
  intro mol smi hs emb blk upTo14 upTo22
  simp only [canon_smiles, stmt_get_mol, stmt_get_smiles, stmt_printf_smiles, stmt_add_hs,
    stmt_set_3d_coords, stmt_get_molblock, stmt_printf_molb, stmt_free_molb, stmt_free_pkl,
    bind, Except.bind, pure, Except.pure]
  cases h1 : F.cstr smi.2 smi.1 with
  | none => simp [h1, mol, smi, upTo14] at *
  | some smiText =>
    cases h2 : F.cstr blk.2 blk.1 with
    | none => simp [h1, h2, mol, smi, hs, emb, blk, upTo14, upTo22] at *
    | some blkText => simp [h1, h2, mol, smi, hs, emb, blk, upTo14, upTo22] at *

/-- C1 as stated fails: with the library whose `get_molblock` returns `NULL`
(every other call succeeding and `smiles` holding a string), the run started
in the empty state is undefined at line 22, `printf("%s\n",molb)` with
`molb = NULL`.  It does not come to a return, its last call is that `printf`,
and the calls it made contain no `free(pkl)` (and no `free` at all), although
`pkl` holds the handle at address 4. -/
theorem canon_smiles_null_molblock_never_frees_pkl :
    returned (canon_smiles nullBlockLib state0) = false ∧
    (canon_smiles_events nullBlockLib state0).countP (Event.isFreeOf Var.pkl) = 0 ∧
    (canon_smiles_events nullBlockLib state0).filter Event.isFree = [] ∧
    (canon_smiles_events nullBlockLib state0).getLast? =
      some ⟨Fn.printf, [Arg.lit "%s\n", Arg.val Var.molb 0], none⟩ ∧
    (reached (canon_smiles nullBlockLib state0)).pkl = 4 ∧
    (reached (canon_smiles nullBlockLib state0)).molb = 0 := by
  refine ⟨by decide, by decide, by decide, by decide, by decide, by decide⟩

/-- C1, amended: on every run of `canon_smiles` in which `smiles` and `molb`
hold strings when lines 14 and 22 print them, the function returns and the
handle held in `pkl` is released exactly once.  Exactly one call of the run is
`free(pkl)`; it is the last call; the only other `free` is `free(molb)`; the
value freed is the handle as `set_3d_coords` left it, after `add_hs`, after
`get_mol`; and the hidden state at the return is what the library's `free` of
that handle leaves, applied after its `free` of `molb`.  On every run, for
every library, the number of calls `free(pkl)` is one if the function returns
and zero if it does not: no path frees the handle twice or returns without
freeing it. -/
theorem canon_smiles_frees_pkl_exactly_once (F : Library W) (s : State W) :
    let mol := F.get_mol "c1cc(O)ccc1" s.pkl_size "" s.world
    let smi := F.get_smiles mol.1.1 mol.1.2 none mol.2
    let hs := F.add_hs mol.1.1 mol.1.2 smi.2
    let emb := F.set_3d_coords hs.1.1 hs.1.2 "\x7b\"randomSeed\":42\x7d" hs.2
    let blk := F.get_molblock emb.1.1 emb.1.2 none emb.2
    ((canon_smiles_events F s).countP (Event.isFreeOf Var.pkl) =
      if returned (canon_smiles F s) = true then 1 else 0) ∧
    ((F.cstr smi.2 smi.1).isSome = true → (F.cstr blk.2 blk.1).isSome = true →
      returned (canon_smiles F s) = true ∧
      (canon_smiles_events F s).countP (Event.isFreeOf Var.pkl) = 1 ∧
      (canon_smiles_events F s).getLast? =
        some ⟨Fn.free, [Arg.val Var.pkl emb.1.1], none⟩ ∧
      (canon_smiles_events F s).filter Event.isFree =
        [ ⟨Fn.free, [Arg.val Var.molb blk.1], none⟩,
          ⟨Fn.free, [Arg.val Var.pkl emb.1.1], none⟩ ] ∧
      (reached (canon_smiles F s)).pkl = emb.1.1 ∧
      (reached (canon_smiles F s)).world = F.free emb.1.1 (F.free blk.1 blk.2)) := by
  have h := canon_smiles_outcome F s
  dsimp only at h ⊢
  split at h
  · rename_i _ h1
    simp [canon_smiles_events, h, h1, reached, returned, List.countP_cons, Event.isFreeOf,
      Event.vars, Arg.var?]
  · split at h
    · rename_i _ _ h1 _ h2
      simp [canon_smiles_events, h, h1, h2, reached, returned, List.countP_cons,
        Event.isFreeOf, Event.vars, Arg.var?]
    · rename_i _ _ h1 _ _ h2
      simp [canon_smiles_events, h, h1, h2, reached, returned, List.countP_cons,
        Event.isFreeOf, Event.vars, Arg.var?, List.filter_cons, Event.isFree]

/-- Evaluation of C1, amended, on the stand-in library from the empty state:
`smiles` (address 2) and `molb` (address 5) hold strings when printed, the run
returns, it contains one `free(pkl)`, and the library has been handed for
release the block (5) and then the handle (4). -/
theorem canon_smiles_frees_pkl_exactly_once_witness :
    (stubLib.cstr (2, []) 2).isSome = true ∧ (stubLib.cstr (5, []) 5).isSome = true ∧
    returned (canon_smiles stubLib state0) = true ∧
    (canon_smiles_events stubLib state0).countP (Event.isFreeOf Var.pkl) = 1 ∧
    (reached (canon_smiles stubLib state0)).world = (5, [5, 4]) :=
  ⟨by decide, by decide,
    ((canon_smiles_frees_pkl_exactly_once stubLib state0).2 (by decide) (by decide)).1,
    ((canon_smiles_frees_pkl_exactly_once stubLib state0).2 (by decide) (by decide)).2.1,
    ((canon_smiles_frees_pkl_exactly_once stubLib state0).2 (by decide) (by decide)).2.2.2.2.2⟩

/-- C2: in every run of `canon_smiles`, for every library and start state and
whether or not the run comes to its return, no variable that was handed to
`free` is an argument of any later call: for each pair of calls in trace
order, if the earlier one is a `free`, the later one names none of its
variables.  A run that returns ends with `free(molb)` then `free(pkl)`,
nothing follows them, and no call before them is a `free`; a run that stops at
an undefined `printf` contains no `free` at all.  So every use of a buffer
precedes its release. -/
theorem canon_smiles_no_use_after_free (F : Library W) (s : State W) :
    List.Pairwise (fun e later => e.isFree = true → ∀ v ∈ e.vars, v ∉ later.vars)
      (canon_smiles_events F s) ∧
    (if returned (canon_smiles F s) = true then
      ∃ uses : List Event,
        canon_smiles_events F s =
          uses ++ [ ⟨Fn.free, [Arg.val Var.molb (reached (canon_smiles F s)).molb], none⟩,
                    ⟨Fn.free, [Arg.val Var.pkl (reached (canon_smiles F s)).pkl], none⟩ ] ∧
        ∀ e ∈ uses, e.isFree = false
     else ∀ e ∈ canon_smiles_events F s, e.isFree = false) := by
  have h := canon_smiles_outcome F s
  dsimp only at h
  split at h
  · simp [canon_smiles_events, h, reached, returned, Event.isFree, Event.vars, Arg.var?]
  · split at h
    · simp [canon_smiles_events, h, reached, returned, Event.isFree, Event.vars, Arg.var?]
    · refine ⟨?_, ?_⟩
      · simp [canon_smiles_events, h, reached, Event.isFree, Event.vars, Arg.var?]
      · rw [if_pos (by simp [h, returned])]
        refine ⟨List.take 7 (canon_smiles_events F s), ?_, ?_⟩
        · simp [canon_smiles_events, h, reached]
        · simp [canon_smiles_events, h, reached, Event.isFree]

/-- C4: the statements that pass `pkl` and `pkl_size` by value leave both
variables as they were, for every library and every state: this holds for the
`get_smiles` call and the `get_molblock` call (and for the two `printf`
statements between and after them, defined or not).  After `add_hs` and after
`set_3d_coords` the two variables hold what the library wrote through the
addresses it was given, which for some library differs from what they held.
In a run of `canon_smiles`, once `get_mol` has produced the handle, the calls
that receive the address of a local are exactly `add_hs` and `set_3d_coords`,
each with the addresses of `pkl` and `pkl_size` (none at all in a run that
stops at line 14). -/
theorem handle_changed_only_through_its_address (F : Library W) (s : State W) :
    ((stmt_get_smiles F s).pkl = s.pkl ∧ (stmt_get_smiles F s).pkl_size = s.pkl_size) ∧
    ((stmt_get_molblock F s).pkl = s.pkl ∧ (stmt_get_molblock F s).pkl_size = s.pkl_size) ∧
    ((reached (stmt_printf_smiles F s)).pkl = s.pkl ∧
      (reached (stmt_printf_smiles F s)).pkl_size = s.pkl_size) ∧
    ((reached (stmt_printf_molb F s)).pkl = s.pkl ∧
      (reached (stmt_printf_molb F s)).pkl_size = s.pkl_size) ∧
    ((stmt_add_hs F s).pkl = (F.add_hs s.pkl s.pkl_size s.world).1.1 ∧
      (stmt_add_hs F s).pkl_size = (F.add_hs s.pkl s.pkl_size s.world).1.2) ∧
    ((stmt_set_3d_coords F s).pkl =
        (F.set_3d_coords s.pkl s.pkl_size "\x7b\"randomSeed\":42\x7d" s.world).1.1 ∧
      (stmt_set_3d_coords F s).pkl_size =
        (F.set_3d_coords s.pkl s.pkl_size "\x7b\"randomSeed\":42\x7d" s.world).1.2) ∧
    (∃ (G : Library (Nat × List Nat)) (t : State (Nat × List Nat)),
      (stmt_add_hs G t).pkl ≠ t.pkl ∧ (stmt_add_hs G t).pkl_size ≠ t.pkl_size ∧
      (stmt_set_3d_coords G t).pkl ≠ t.pkl ∧ (stmt_set_3d_coords G t).pkl_size ≠ t.pkl_size) ∧
    ((canon_smiles_events F s).tail.filter (fun e => !e.refs.isEmpty)).map
        (fun e => (e.fn, e.refs)) =
      (if (F.cstr
            (F.get_smiles (F.get_mol "c1cc(O)ccc1" s.pkl_size "" s.world).1.1
              (F.get_mol "c1cc(O)ccc1" s.pkl_size "" s.world).1.2 none
              (F.get_mol "c1cc(O)ccc1" s.pkl_size "" s.world).2).2
            (F.get_smiles (F.get_mol "c1cc(O)ccc1" s.pkl_size "" s.world).1.1
              (F.get_mol "c1cc(O)ccc1" s.pkl_size "" s.world).1.2 none
              (F.get_mol "c1cc(O)ccc1" s.pkl_size "" s.world).2).1).isSome = true
       then [ (Fn.add_hs, [Var.pkl, Var.pkl_size]),
              (Fn.set_3d_coords, [Var.pkl, Var.pkl_size]) ]
       else []) := by
  refine ⟨⟨rfl, rfl⟩, ⟨rfl, rfl⟩, ?_, ?_, ⟨rfl, rfl⟩, ⟨rfl, rfl⟩, ?_, ?_⟩
  · unfold stmt_printf_smiles
    split <;> exact ⟨rfl, rfl⟩
  · unfold stmt_printf_molb
    split <;> exact ⟨rfl, rfl⟩
  · exact ⟨stubLib, state0, by decide, by decide, by decide, by decide⟩
  · have h := canon_smiles_outcome F s
    dsimp only at h
    split at h
    · rename_i _ h1
      simp [canon_smiles_events, h, h1, reached, List.filter_cons, Event.refs, Arg.refVar?]
    · split at h
      · rename_i _ _ h1 _ h2
        simp [canon_smiles_events, h, h1, reached, List.filter_cons, Event.refs, Arg.refVar?]
      · rename_i _ _ h1 _ _ h2
        simp [canon_smiles_events, h, h1, reached, List.filter_cons, Event.refs, Arg.refVar?]

/-- C5: the version query returns, in every program state, the same string,
namely the constant `rdkitVersion` of versions.cpp, which is "2021.09.1pre";
and the state it hands back (handle variables, output, hidden library state) is
the state it was called in. -/
theorem libraryVersion_static (s t : State W) :
    (libraryVersion s).1 = "2021.09.1pre" ∧
    (libraryVersion s).1 = rdkitVersion ∧
    (libraryVersion s).1 = (libraryVersion t).1 ∧
    (libraryVersion s).2 = s := by
  exact ⟨rfl, rfl, rfl, rfl⟩

/-- C9: evaluation of `canon_smiles` against the stand-in library from the
empty start state.  The run returns.  The three buffers received are the
handle (address 4 once `set_3d_coords` is done), the string from `get_smiles`
(address 2) and the block from `get_molblock` (address 5).  The run frees the
block and the handle and nothing else: the library's `free` has received
exactly 5 and 4, no call `free(smiles)` occurs, and at the return address 2
still holds its string, unreleased.  The absence of `free(smiles)` holds for
every library and start state, while `free(molb)` and `free(pkl)` each occur
once in every run that returns. -/
theorem canon_smiles_never_frees_smiles :
    returned (canon_smiles stubLib state0) = true ∧
    (reached (canon_smiles stubLib state0)).smiles = 2 ∧
    (canon_smiles_events stubLib state0).filter Event.isFree =
      [ ⟨Fn.free, [Arg.val Var.molb 5], none⟩, ⟨Fn.free, [Arg.val Var.pkl 4], none⟩ ] ∧
    (reached (canon_smiles stubLib state0)).world = (5, [5, 4]) ∧
    stubLib.cstr (reached (canon_smiles stubLib state0)).world 2 = some "text" ∧
    (∀ (V : Type) (F : Library V) (s : State V),
      (canon_smiles_events F s).countP (Event.isFreeOf Var.smiles) = 0 ∧
      (canon_smiles_events F s).countP (Event.isFreeOf Var.molb) =
        (if returned (canon_smiles F s) = true then 1 else 0) ∧
      (canon_smiles_events F s).countP (Event.isFreeOf Var.pkl) =
        (if returned (canon_smiles F s) = true then 1 else 0)) := by
  refine ⟨by decide, by decide, by decide, by decide, by decide, ?_⟩
  intro V F s
  have h := canon_smiles_outcome F s
  dsimp only at h
  split at h
  · simp [canon_smiles_events, h, reached, returned, List.countP_cons, Event.isFreeOf,
      Event.vars, Arg.var?]
  · split at h
    · simp [canon_smiles_events, h, reached, returned, List.countP_cons, Event.isFreeOf,
        Event.vars, Arg.var?]
    · simp [canon_smiles_events, h, reached, returned, List.countP_cons, Event.isFreeOf,
        Event.vars, Arg.var?]

/-- C10 as stated fails: with the library whose `get_molblock` returns `NULL`
(`version()` and `get_smiles` returning strings), `main` started in the empty
state is undefined at line 22, `printf("%s\n",molb)` with `molb = NULL`.  It
does not return 0 (it does not return), and the output up to that point is the
first two lines only. -/
theorem main_null_molblock_no_third_line :
    (∀ r, main nullBlockLib state0 ≠ Except.ok r) ∧
    (∃ st, main nullBlockLib state0 = Except.error st ∧
      st.out = "RDKIT CFFI text\nCanonical SMILES: text\n" ∧ st.molb = 0 ∧
      st.trace.getLast? = some ⟨Fn.printf, [Arg.lit "%s\n", Arg.val Var.molb 0], none⟩) := by
  refine ⟨?_, ?_⟩
  · intro r h
    have h2 : (main nullBlockLib state0).toBool = true := by rw [h]; rfl
    revert h2
    decide
  · exact ⟨_, rfl, by decide, by decide, by decide⟩

/-- C10, amended: for every library and every start state such that the
pointers returned by `version()`, `get_smiles` and `get_molblock` hold strings
when they are printed (`verText`, `smiText`, `blkText`), `main` returns 0 and
appends to standard output exactly three lines, in this order: "RDKIT CFFI "
followed by `verText`; "Canonical SMILES: " followed by `smiText`, read in the
state right after `get_smiles`, before `add_hs` and `set_3d_coords` run; and
`blkText`, the string returned by `get_molblock` for the handle left by
`set_3d_coords`.  Each line ends with a newline. -/
theorem main_stdout (F : Library W) (s : State W) (verText smiText blkText : String) :
    let w0 := F.enable_logging s.world
    let ver := F.version w0
    let mol := F.get_mol "c1cc(O)ccc1" s.pkl_size "" ver.2
    let smi := F.get_smiles mol.1.1 mol.1.2 none mol.2
    let hs := F.add_hs mol.1.1 mol.1.2 smi.2
    let emb := F.set_3d_coords hs.1.1 hs.1.2 "\x7b\"randomSeed\":42\x7d" hs.2
    let blk := F.get_molblock emb.1.1 emb.1.2 none emb.2
    F.cstr ver.2 ver.1 = some verText →
    F.cstr smi.2 smi.1 = some smiText →
    F.cstr blk.2 blk.1 = some blkText →
    ∃ t : State W,
      main F s = Except.ok (0, t) ∧
      t.out =
        s.out ++ ("RDKIT CFFI " ++ verText ++ "\n")
          ++ ("Canonical SMILES: " ++ smiText ++ "\n")
          ++ (blkText ++ "\n") ∧
      t.world = F.free emb.1.1 (F.free blk.1 blk.2) := by
  intro w0 ver mol smi hs emb blk hv h1 h2
  have h := canon_smiles_outcome F
    { s with
      world := ver.2
      out := s.out ++ ("RDKIT CFFI " ++ verText ++ "\n")
      trace := s.trace ++
        [⟨Fn.enable_logging, [], none⟩, ⟨Fn.version, [], some ver.1⟩,
         ⟨Fn.printf, [Arg.lit "RDKIT CFFI %s\n", Arg.tmp ver.1], none⟩] }
  dsimp only at h
  simp only [w0, ver, mol, smi, hs, emb, blk] at hv h1 h2 ⊢
  rw [h1, h2] at h
  simp [main, stmt_enable_logging, stmt_printf_version, hv, h, bind, Except.bind, pure,
    Except.pure]

/-- Evaluation of C10, amended, on the stand-in library from the empty state:
the three printed pointers hold the placeholder string, `main` returns 0 and
the output is the three lines. -/
theorem main_stdout_witness :
    stubLib.cstr (1, []) 1 = some "text" ∧ stubLib.cstr (3, []) 3 = some "text" ∧
    stubLib.cstr (6, []) 6 = some "text" ∧
    ∃ t : State (Nat × List Nat),
      main stubLib state0 = Except.ok (0, t) ∧
      t.out = "" ++ ("RDKIT CFFI " ++ "text" ++ "\n") ++ ("Canonical SMILES: " ++ "text" ++ "\n")
        ++ ("text" ++ "\n") ∧
      t.world = (6, [6, 5]) :=
  ⟨by decide, by decide, by decide,
    main_stdout stubLib state0 "text" "text" "text" (by decide) (by decide) (by decide)⟩

end RdkitCffi
